import Mathlib

/-!
# Verification of the pydantic-marc validation engine

Shallow embedding of the MARC21 record-validation engine of the
`pydantic_marc` package.  Pure Python functions are translated into Lean
functions; the field/record validators that can raise Python exceptions
other than validation failures (`IndexError`, `KeyError`, `AttributeError`)
are embedded in the `Except Unit` monad, `.error ()` standing for such an
escaped exception.

Embedded modules:
* `marc_rules.py` — `determine_material_type`, `default_rules`, `Rule`;
* `error_handlers.py` / `field_validators.py` — the per-field checkers
  (`get_control_field_length_errors`, `get_control_field_value_errors`,
  `get_indicator_errors`, `get_subfield_errors`) and the record level
  checkers (`get_marc_field_errors`, `get_leader_errors`);
* `record_validators.py` / `utils.py` — `add_rules_to_pymarc_fields` (both
  revisions) and the aggregation pipeline `validate_marc_fields`.

The static rule table (`validation_rules/default_rules.json`) and the
country/language code tables (`validation_rules/marc_codes.json`) are data
files that are not part of the Python sources; where a concrete table is
needed it is modelled from the specification and clearly marked as such.
-/

deriving instance DecidableEq for Except

namespace PydanticMarc

/-- A subfield of a MARC data field: one-character code plus value
(`PydanticSubfield` in `components.py`). -/
structure Subfield where
  code : String
  value : String
deriving DecidableEq, Repr

/-- The two indicators of a MARC data field (`PydanticIndicators` in
`components.py`); each is an empty or one-character string. -/
structure Indicators where
  first : String
  second : String
deriving DecidableEq, Repr

/-- Payload of a MARC field: scalar data for control fields (tags `00X`),
indicators plus subfields for data fields. -/
inductive FieldData where
  | control (data : String)
  | datafield (ind : Indicators) (subs : List Subfield)
deriving DecidableEq, Repr

/-- One field of a MARC record: tag plus payload. -/
structure MarcField where
  tag : String
  fdata : FieldData
deriving DecidableEq, Repr

/-- A resolved length constraint as stored in a `Rule`'s `length` attribute:
the Python value is either an `int` or a two-element list `[min, max]`
(the 007 subtype table maps subtype bytes to either form). -/
inductive LengthRule where
  | fixed (n : Nat)
  | range (lo hi : Nat)
deriving DecidableEq, Repr

/-- Python truthiness of a `length` entry: `0` is falsy, a (two-element)
list is always truthy. Mirrors `if not valid_length: return errors`. -/
def LengthRule.truthy : LengthRule → Bool
  | .fixed n => n ≠ 0
  | .range _ _ => true

/-- Python's `len(data) == valid_length`: comparing an `int` against a
`list` in Python is always `False`, so a `range` entry never compares
equal to a length. -/
def LengthRule.pyEq (dataLen : Nat) : LengthRule → Bool
  | .fixed n => dataLen = n
  | .range _ _ => false

/-- The `values` attribute of a `Rule`: position key (`"NN"`) or range key
(`"NN-MM"`) mapped to the list of allowed strings, in insertion order. -/
abbrev ValuesMap : Type := List (String × List String)

/-- Subfield constraints of a `Rule`: the `valid`, `repeatable` and
`non_repeatable` code lists (a missing key is the empty list, matching
`rule.subfields.get("valid", [])`). -/
structure SubfieldRules where
  valid : List String
  repeatable : List String
  non_repeatable : List String
deriving DecidableEq, Repr

/-- The validation contract for one tag (`Rule` in `marc_rules.py`).
`none` stands for the Python attribute being `None`/unset. -/
structure Rule where
  tag : String
  repeatable : Option Bool := none
  required : Option Bool := none
  ind1 : List String := []
  ind2 : List String := []
  subfields : Option SubfieldRules := none
  length : Option LengthRule := none
  values : Option ValuesMap := none
deriving DecidableEq, Repr

/-- One validation error, by taxonomy kind, carrying the same context the
Python error classes carry (`errors.py`). -/
inductive MarcError where
  | controlFieldLength (tag : String) (valid : LengthRule) (input : String)
  | invalidFixedField (tag : String) (input : String) (validList : List String)
      (loc : String)
  | invalidFixedFieldCode (tag : String) (input : String) (msg : String)
      (loc : String)
  | invalidIndicator (tag : String) (ind : String) (input : String)
      (valid : List String)
  | invalidSubfield (tag : String) (code : String) (input : List Subfield)
  | nonRepeatableSubfield (tag : String) (code : String) (input : List Subfield)
  | nonRepeatableField (tag : String)
  | missingRequiredField (tag : String)
  | multipleMainEntry (tags : List String)
  | invalidLeader (input : String) (loc : String) (valid : List String)
deriving DecidableEq, Repr

/-- Python slice `s[a:b]` on a string (never raises; clips at both ends). -/
def pySlice (s : String) (a b : Nat) : String :=
  String.mk ((s.data.drop a).take (b - a))

/-- Python `f"{i:02d}"`: decimal rendering of `i` left-padded with zeros to
width two. -/
def pad2 (i : Nat) : String :=
  if i < 10 then "0" ++ toString i else toString i

/-- `determine_material_type` (`marc_rules.py`): reads leader byte 6
(and byte 7 when byte 6 is `'a'`); `none` for an absent leader or one of
fewer than 8 characters. -/
def determine_material_type (leader : Option String) : Option String :=
  match leader with
  | none => none
  | some l =>
    if l.length < 8 then none
    else
      let record_type := pySlice l 6 7
      let byte7 := pySlice l 7 8
      if record_type = "a" ∧ (byte7 = "b" ∨ byte7 = "i" ∨ byte7 = "s") then
        some "CR"
      else if record_type = "c" ∨ record_type = "d" ∨ record_type = "i"
          ∨ record_type = "j" then some "MU"
      else if record_type = "e" ∨ record_type = "f" then some "MP"
      else if record_type = "g" ∨ record_type = "k" ∨ record_type = "o"
          ∨ record_type = "r" then some "VM"
      else if record_type = "m" then some "CF"
      else if record_type = "p" then some "MM"
      else some "BK"

/-- `get_control_field_length_errors` (`error_handlers.py`,
`field_validators.py`): single equality test of `len(data)` against the
resolved `length` entry, skipped when the entry is falsy. -/
def get_control_field_length_errors (rule : Rule) (data : String)
    (tag : String) : List MarcError :=
  match rule.length with
  | none => []
  | some l =>
    if l.truthy = false then []
    else if l.pyEq data.length then []
    else [.controlFieldLength tag l data]

/-- `get_indicator_errors` (`error_handlers.py`, `field_validators.py`):
each of the two indicator values is tested for membership in the rule's
corresponding list; a failure emits one `InvalidIndicator` keyed
`(tag, "ind1")` or `(tag, "ind2")`. -/
def get_indicator_errors (rule : Rule) (data : Indicators)
    (tag : String) : List MarcError :=
  (if data.first ∈ rule.ind1 then []
   else [.invalidIndicator tag "ind1" data.first rule.ind1]) ++
  (if data.second ∈ rule.ind2 then []
   else [.invalidIndicator tag "ind2" data.second rule.ind2])

/-- Helper for `dedupFirst`: drops elements already seen. -/
def dedupAux : List String → List String → List String
  | [], _ => []
  | c :: rest, seen =>
    if c ∈ seen then dedupAux rest seen else c :: dedupAux rest (c :: seen)

/-- First occurrences of each element, in order: the iteration order of the
keys of a Python `Counter` built from the list. -/
def dedupFirst (l : List String) : List String := dedupAux l []

/-- `get_subfield_errors` (`error_handlers.py`, `field_validators.py`):
for each distinct code, a `NonRepeatableSubfield` when it repeats and is in
the `non_repeatable` list, else an `InvalidSubfield` when a nonempty
`valid` list does not contain it. -/
def get_subfield_errors (rule : Rule) (data : List Subfield)
    (tag : String) : List MarcError :=
  match rule.subfields with
  | none => []
  | some sr =>
    (dedupFirst (data.map (fun s => s.code))).filterMap (fun code =>
      let occurrences := data.filter (fun s => s.code = code)
      if 1 < occurrences.length ∧ code ∈ sr.non_repeatable then
        some (.nonRepeatableSubfield tag code occurrences)
      else if sr.valid ≠ [] ∧ code ∉ sr.valid then
        some (.invalidSubfield tag code occurrences)
      else none)

/-- Association-list lookup with string keys: Python `dict.get`, first
binding wins. -/
def lookupA {α : Type} : List (String × α) → String → Option α
  | [], _ => none
  | p :: rest, k => if p.1 = k then some p.2 else lookupA rest k

/-- Remove the binding for a key: Python `dict.pop` (keys are unique in the
dictionaries the code builds). -/
def removeKey {α : Type} : List (String × α) → String → List (String × α)
  | [], _ => []
  | p :: rest, k => if p.1 = k then rest else p :: removeKey rest k

/-- Overwrite the value stored under a key, keeping its position: a Python
in-place write to an object reached through the dict. -/
def updateA {α : Type} : List (String × α) → String → α → List (String × α)
  | [], _, _ => []
  | p :: rest, k, v => if p.1 = k then (k, v) :: rest else p :: updateA rest k v

/-- The country/language code tables from `validation_rules/marc_codes.json`
(`marc_codes()` in the source): only key membership is used. -/
structure CodeTables where
  country_codes : List String
  language_codes : List String
deriving DecidableEq, Repr

/-- Split a character list at every occurrence of a separator (Python
`str.split(sep)`: `n` separators give `n + 1` parts, possibly empty). -/
def splitOnCharAux (sep : Char) : List Char → List Char → List (List Char)
  | [], acc => [acc.reverse]
  | c :: rest, acc =>
    if c = sep then acc.reverse :: splitOnCharAux sep rest []
    else splitOnCharAux sep rest (c :: acc)

/-- Decimal parse of a character list: `some` exactly for a nonempty
all-digit list (the shape the rule tables' position keys have). -/
def charsToNat? (l : List Char) : Option Nat :=
  if l = [] then none
  else if l.all (fun c => c.isDigit) then
    some (l.foldl (fun n c => n * 10 + (c.toNat - 48)) 0)
  else none

/-- Parse a range key `"NN-MM"`: Python
`start, end = position.split("-"); int(start), int(end)`, where a shape or
parse failure raises (`ValueError`). -/
def parseRange (position : String) : Except Unit (Nat × Nat) :=
  match splitOnCharAux '-' position.data [] with
  | [a, b] =>
    match charsToNat? a, charsToNat? b with
    | some x, some y => .ok (x, y)
    | _, _ => .error ()
  | _ => .error ()

/-- One pass of the range-merging loop in
`get_control_field_value_errors`: for a range key, join the characters at
the covered positions (a missing position raises `KeyError`), append the
range key at the end of the dict and pop the covered position keys. -/
def mergeStep (dd : List (String × String)) (position : String) :
    Except Unit (List (String × String)) :=
  if '-' ∈ position.data then do
    let se ← parseRange position
    let keys := (List.range' se.1 (se.2 + 1 - se.1)).map pad2
    let chars ← keys.mapM (fun k =>
      match lookupA dd k with
      | some c => Except.ok c
      | none => Except.error ())
    let dd1 := dd ++ [(position, String.join chars)]
    keys.foldlM (fun acc k =>
      if (lookupA acc k).isSome then Except.ok (removeKey acc k)
      else Except.error ()) dd1
  else .ok dd

/-- The generic (rule-driven) part of `get_control_field_value_errors`
(`error_handlers.py`, `field_validators.py`): build the position→character
dict, merge range keys, then report each dict entry whose allowed set is
defined, nonempty and does not contain the entry's characters. -/
def genericValueErrors (rule : Rule) (data : String) (tag : String) :
    Except Unit (List MarcError) :=
  match rule.values with
  | none => .ok []
  | some vm =>
    if vm = [] then .ok []
    else
      match vm.foldlM (fun acc p => mergeStep acc p.1)
          (data.data.enum.map (fun p => (pad2 p.1, String.mk [p.2]))) with
      | .error u => .error u
      | .ok dd =>
        .ok (dd.filterMap (fun p =>
          match lookupA vm p.1 with
          | none => none
          | some vals =>
            if vals = [] then none
            else if p.2 ∈ vals then none
            else some (.invalidFixedField tag p.2 vals p.1)))

/-- The `valid` message of the 008 language-code error. -/
def langCodeMsg : String :=
  "see https://id.loc.gov/vocabulary/languages.html for list of valid language codes"

/-- The `valid` message of the 008 country-code error. -/
def countryCodeMsg : String :=
  "see https://id.loc.gov/vocabulary/countries.html for list of valid country codes"

/-- The tag-008 special case of `get_control_field_value_errors`: the
language code at `data[35:38]` is tested against the language table's keys,
the country code at `data[15:18]` against the country table's keys each
right-padded with spaces to 3 characters. -/
def marc008CodeErrors (codes : CodeTables) (data : String) : List MarcError :=
  (if pySlice data 35 38 ∈ codes.language_codes then []
   else [.invalidFixedFieldCode "008" (pySlice data 35 38) langCodeMsg "35-37"]) ++
  (if pySlice data 15 18 ∈ codes.country_codes.map
      (fun c => c.pushn ' ' (3 - c.length)) then []
   else [.invalidFixedFieldCode "008" (pySlice data 15 18) countryCodeMsg "15-17"])

/-- `get_control_field_value_errors` (`error_handlers.py`,
`field_validators.py`): generic positional errors followed by the tag-008
country/language check, which runs unconditionally for tag `"008"`. -/
def get_control_field_value_errors (codes : CodeTables) (rule : Rule)
    (data : String) (tag : String) : Except Unit (List MarcError) := do
  let generic ← genericValueErrors rule data tag
  pure (generic ++ (if tag = "008" then marc008CodeErrors codes data else []))

/-- `get_leader_errors` (`record_validators.py`, `error_handlers.py`): each
character of the leader string is tested against the `"LDR"` rule's allowed
set for its zero-padded position key (missing key: empty set). -/
def get_leader_errors (ldrRule : Option Rule) (data : String) :
    List MarcError :=
  match ldrRule with
  | none => []
  | some r =>
    match r.values with
    | none => []
    | some vm =>
      if vm = [] then []
      else data.data.enum.filterMap (fun p =>
        let position := pad2 p.1
        let valid := (lookupA vm position).getD []
        if String.mk [p.2] ∈ valid then none
        else some (.invalidLeader (String.mk [p.2]) position valid))

/-- One entry of the resolved rule table: a single `Rule`, or a
subtype/material-keyed dictionary of `Rule`s (tags 006/007/008). -/
inductive RuleEntry where
  | single (r : Rule)
  | bySub (m : List (String × Rule))
deriving DecidableEq, Repr

/-- The resolved rule table: tag → entry, in insertion order. -/
abbrev RuleTable : Type := List (String × RuleEntry)

/-- `RuleSet.non_repeatable_fields` (`marc_rules.py`): tags whose rule (or
any sub-rule of a keyed entry) has `repeatable` exactly `False`. -/
def non_repeatable_fields (tbl : RuleTable) : List String :=
  (tbl.map (fun p =>
    match p.2 with
    | .single r => if r.repeatable = some false then [p.1] else []
    | .bySub m => m.filterMap (fun q =>
        if q.2.repeatable = some false then some p.1 else none))).flatten

/-- `RuleSet.required_fields` (`marc_rules.py`): tags whose rule (or any
sub-rule of a keyed entry) has `required` exactly `True`. -/
def required_fields (tbl : RuleTable) : List String :=
  (tbl.map (fun p =>
    match p.2 with
    | .single r => if r.required = some true then [p.1] else []
    | .bySub m => m.filterMap (fun q =>
        if q.2.required = some true then some p.1 else none))).flatten

/-- `Counter(tags).elements()`: every occurrence of each value, grouped by
first-occurrence order of the distinct values. -/
def counterElements (tags : List String) : List String :=
  ((dedupFirst tags).map (fun t => tags.filter (fun x => x = t))).flatten

/-- Python `tag.startswith("1")` on a tag string. -/
def isMainEntryTag (t : String) : Bool :=
  match t.data with
  | [] => false
  | c :: _ => c = '1'

/-- `get_marc_field_errors` (`record_validators.py`, `error_handlers.py`):
the cross-field checks — repeated non-repeatable tags, absent required
tags, more than one `1XX` tag. -/
def get_marc_field_errors (tbl : RuleTable) (fields : List MarcField) :
    List MarcError :=
  let tags := fields.map (fun f => f.tag)
  let main_entries := (counterElements tags).filter isMainEntryTag
  ((non_repeatable_fields tbl).filterMap (fun t =>
      if 1 < tags.count t then some (.nonRepeatableField t) else none)) ++
  ((required_fields tbl).filterMap (fun t =>
      if t ∉ tags then some (.missingRequiredField t) else none)) ++
  (if 1 < main_entries.length then [.multipleMainEntry main_entries] else [])

/-- Rule resolution for one field, from `add_rules_to_pymarc_fields`
(`record_validators.py`): direct tag lookup, except tag `"007"` which
selects a sub-rule by the first character of the field's data
(`rule.get(field.data[0], {})`).  `data[0]` on an empty payload raises
`IndexError`; `.get` on a `Rule` (instead of a dict of sub-rules) and
`.data` on a data field raise as well — all modelled as `.error ()`. -/
def resolveFieldRule (tbl : RuleTable) (f : MarcField) :
    Except Unit (Option Rule) :=
  let rule? := lookupA tbl f.tag
  if f.tag = "007" then
    match rule? with
    | none => .ok none
    | some (.bySub m) =>
      match f.fdata with
      | .control data =>
        match data.data with
        | [] => .error ()
        | c :: _ => .ok (lookupA m (String.mk [c]))
      | .datafield _ _ => .error ()
    | some (.single _) => .error ()
  else
    match rule? with
    | some (.single r) => .ok (some r)
    | some (.bySub m) => if m = [] then .ok none else .error ()
    | none => .ok none

/-- Validation of one field against its resolved rule: control fields run
the length check and, only when it passes, the value check (the value
validator runs after the length validator and a raised length error stops
the chain); data fields run the indicator and subfield checks, whose error
lists are both collected. -/
def fieldErrors (codes : CodeTables) (tbl : RuleTable) (f : MarcField) :
    Except Unit (List MarcError) := do
  let r? ← resolveFieldRule tbl f
  match r? with
  | none => pure []
  | some r =>
    match f.fdata with
    | .control data =>
      let le := get_control_field_length_errors r data f.tag
      if le = [] then get_control_field_value_errors codes r data f.tag
      else pure le
    | .datafield ind subs =>
      pure (get_indicator_errors r ind f.tag ++ get_subfield_errors r subs f.tag)

/-- The `"LDR"` entry of the table, when it is a single rule. -/
def lookupLDR (tbl : RuleTable) : Option Rule :=
  match lookupA tbl "LDR" with
  | some (.single r) => some r
  | _ => none

/-- The full-record pass (`validate_marc_fields` in `validators.py` /
`record_validators.py` plus the leader validator): leader errors, then the
cross-field errors computed before per-field validation, then every field's
own errors, all concatenated into the one raised collection. -/
def validate_marc_record (codes : CodeTables) (tbl : RuleTable)
    (leader : String) (fields : List MarcField) :
    Except Unit (List MarcError) := do
  let ldrErrs := get_leader_errors (lookupLDR tbl) leader
  let crossErrs := get_marc_field_errors tbl fields
  let perField ← fields.mapM (fieldErrors codes tbl)
  pure (ldrErrs ++ crossErrs ++ perField.flatten)

/-- One raw entry of `default_rules.json` as `default_rules` inspects it: a
dict carrying a `"tag"` key (a plain rule), or a dict keyed by material
types or subtype bytes and carrying no `"tag"` key. -/
inductive RawEntry where
  | withTag (r : Rule)
  | keyed (m : List (String × Rule))
deriving DecidableEq, Repr

/-- The per-entry dispatch inside the `default_rules` loop: a keyed dict
whose keys contain the leader's material type collapses to that material's
rule; any other keyed dict stays a dict of sub-rules; a plain dict becomes
its rule. -/
def processEntry (material : Option String) : RawEntry → RuleEntry
  | .withTag r => .single r
  | .keyed m =>
    match material with
    | some mt =>
      match lookupA m mt with
      | some r => .single r
      | none => .bySub m
    | none => .bySub m

/-- The caller-supplied rule-override context (`context` argument of
`RuleSet` / `default_rules`): `rules = none` models a context dict without
a `"rules"` key; `replace_all` is the flag (absent key = `false`). -/
structure RuleContext where
  rules : Option (List (String × Rule))
  replace_all : Bool
deriving DecidableEq, Repr

/-- `default_rules` (`marc_rules.py`): the context's rules are installed
first; when the context requests `replace_all` they alone form the table;
otherwise every default-table tag not supplied by the context is appended,
resolved against the leader's material type. -/
def default_rules (defaultTbl : List (String × RawEntry))
    (leader : Option String) (context : Option RuleContext) : RuleTable :=
  let ctxRules : RuleTable :=
    match context with
    | some c => (c.rules.getD []).map (fun p => (p.1, RuleEntry.single p.2))
    | none => []
  let replaceAll : Bool :=
    match context with
    | some c => c.rules.isSome && c.replace_all
    | none => false
  if replaceAll then ctxRules
  else
    let material := determine_material_type leader
    ctxRules ++ defaultTbl.filterMap (fun p =>
      if (lookupA ctxRules p.1).isSome then none
      else some (p.1, processEntry material p.2))

/-- One entry of the 007 rule's `material_types` extra attribute in the
`utils.py` revision: the subtype byte's `length` and `values`. -/
structure MaterialTypeEntry where
  length : Option LengthRule
  values : Option ValuesMap
deriving DecidableEq, Repr

/-- A `Rule` together with its `model_extra` `material_types` dict, as the
`utils.py` revision of `add_rules_to_pymarc_fields` sees the 007 rule. -/
structure RuleU where
  core : Rule
  material_types : Option (List (String × MaterialTypeEntry))
deriving DecidableEq, Repr

/-- `add_rules_to_pymarc_fields` (`utils.py`): enrich each field with its
rule; for tag `"007"` the rule object's attribute dict is written through
(`rule_dict = rule.__dict__; rule_dict["length"] = ...`), so the function
also transforms the rule table it reads from — the returned table is the
table after those in-place writes.  A `None` rule (`.__dict__`), a missing
`material_types` key, a missing `"data"` key, `data[0]` on an empty
payload, and an unknown subtype byte all raise, modelled as `.error ()`. -/
def add_rules_to_pymarc_fields (rules : List (String × RuleU))
    (fields : List MarcField) :
    Except Unit (List (String × RuleU) × List (Option RuleU × MarcField)) :=
  fields.foldlM (fun acc field => do
    let tbl := acc.1
    let rule? := lookupA tbl field.tag
    if field.tag = "007" then
      match rule? with
      | none => Except.error ()
      | some r =>
        match field.fdata with
        | .datafield _ _ => Except.error ()
        | .control data =>
          match data.data with
          | [] => Except.error ()
          | c :: _ =>
            match r.material_types with
            | none => Except.error ()
            | some mts =>
              match lookupA mts (String.mk [c]) with
              | none => Except.error ()
              | some mt =>
                let core1 : Rule :=
                  { r.core with length := mt.length, values := mt.values }
                let r1 : RuleU :=
                  { core := core1, material_types := r.material_types }
                let tbl1 := updateA tbl field.tag r1
                Except.ok (tbl1, acc.2 ++ [(some r1, field)])
    else Except.ok (tbl, acc.2 ++ [(rule?, field)]))
    (rules, [])

/-- The ten decimal digit strings. -/
def digitStrings : List String :=
  ["0", "1", "2", "3", "4", "5", "6", "7", "8", "9"]

/-- Modelled from the spec: the `values` map of the synthetic `"LDR"` rule
of the packaged rule table (`validation_rules/default_rules.json` is a data
file absent from the Python sources).  The per-position allowed sets
transcribe the leader pattern of `MarcRecord.leader` in `models.py`,
whose final four positions require the literal `"4500"`. -/
def ldrValues : ValuesMap :=
  [("00", digitStrings), ("01", digitStrings), ("02", digitStrings),
   ("03", digitStrings), ("04", digitStrings),
   ("05", ["a", "c", "d", "n", "p"]),
   ("06", ["a", "c", "d", "e", "f", "g", "i", "j", "k", "m", "o", "p", "r", "t"]),
   ("07", ["a", "b", "c", "d", "i", "m", "s"]),
   ("08", [" ", "a"]), ("09", [" ", "a"]),
   ("10", ["2"]), ("11", ["2"]),
   ("12", digitStrings), ("13", digitStrings), ("14", digitStrings),
   ("15", digitStrings), ("16", digitStrings),
   ("17", [" ", "1", "2", "3", "4", "5", "6", "7", "8", "u", "z", "I", "K", "L", "M"]),
   ("18", [" ", "a", "c", "i", "n", "u"]),
   ("19", [" ", "a", "b", "c"]),
   ("20", ["4"]), ("21", ["5"]), ("22", ["0"]), ("23", ["0"])]

/-- Modelled from the spec: the synthetic `"LDR"` rule entry. -/
def ldrRule : Rule := { tag := "LDR", values := some ldrValues }

/-- Modelled from the spec: the default rule for tag 001 (non-repeatable
control field, no length constraint). -/
def rule001 : Rule :=
  { tag := "001", repeatable := some false, required := some false }

/-- Modelled from the spec: the default rule for tag 008 as resolved for
the BK material type (non-repeatable, required, exact length 40). -/
def rule008BK : Rule :=
  { tag := "008", repeatable := some false, required := some true,
    length := some (.fixed 40) }

/-- Modelled from the spec: the default rule for tag 050. -/
def rule050 : Rule :=
  { tag := "050", repeatable := some true,
    ind1 := ["", " ", "0", "1"], ind2 := ["0", "4"],
    subfields := some { valid := ["a", "b"], repeatable := ["a"],
                        non_repeatable := ["b"] } }

/-- Modelled from the spec: the default rule for tag 245 (required,
non-repeatable). -/
def rule245 : Rule :=
  { tag := "245", repeatable := some false, required := some true,
    ind1 := ["0", "1"], ind2 := digitStrings,
    subfields := some { valid := ["a", "b", "c"], repeatable := [],
                        non_repeatable := ["a", "b", "c"] } }

/-- Modelled from the spec: the default rule for tag 300. -/
def rule300 : Rule :=
  { tag := "300", repeatable := some true,
    ind1 := ["", " "], ind2 := ["", " "],
    subfields := some { valid := ["a", "b", "c"], repeatable := ["a"],
                        non_repeatable := [] } }

/-- Modelled from the spec: the slice of the resolved default rule table
used by the baseline record of the specification's concrete scenarios. -/
def specRuleTable : RuleTable :=
  [("LDR", .single ldrRule), ("001", .single rule001),
   ("008", .single rule008BK), ("050", .single rule050),
   ("245", .single rule245), ("300", .single rule300)]

/-- Modelled from the spec: a slice of the country/language code tables of
`validation_rules/marc_codes.json` (a data file absent from the Python
sources) containing the codes exercised here. -/
def specCodeTables : CodeTables :=
  { country_codes := ["ht", "nyu", "lv"],
    language_codes := ["hat", "eng", "lat"] }

/-- The 008 payload of the specification's baseline record. -/
def baseline008 : String := "190306s2017    ht a   j      000 1 hat d"

/-- The fields of the specification's baseline record (§8, scenario 1). -/
def baselineFields : List MarcField :=
  [{ tag := "001", fdata := .control "on1381158740" },
   { tag := "008", fdata := .control baseline008 },
   { tag := "050", fdata := .datafield { first := " ", second := "4" }
      [{ code := "a", value := "F00" }] },
   { tag := "245", fdata := .datafield { first := "0", second := "0" }
      [{ code := "a", value := "Title :" }, { code := "b", value := "subtitle /" },
       { code := "c", value := "Author" }] },
   { tag := "300", fdata := .datafield { first := " ", second := " " }
      [{ code := "a", value := "100 pages :" }] }]

/-- The baseline record's 24-character leader. -/
def baselineLeader : String := "00454cam a22001575i 4500"

/-- The baseline leader with positions 20–23 replaced by spaces. -/
def corruptedLeader : String := "00454cam a22001575i     "

/-- The 007 rule as the `utils.py` revision holds it: no top-level length,
subtype data in the `material_types` extra (subtype `'a'`: length 8). -/
def rule007U : RuleU :=
  { core := { tag := "007", repeatable := some true },
    material_types := some [("a", { length := some (.fixed 8), values := none })] }

/-- `rule007U` after `add_rules_to_pymarc_fields` wrote the subtype-`'a'`
length and values through the rule's attribute dict. -/
def rule007UMutated : RuleU :=
  { core := { tag := "007", repeatable := some true,
              length := some (.fixed 8) },
    material_types := rule007U.material_types }

/-- A one-entry rule table for the `utils.py` enrichment. -/
def utilsTable : List (String × RuleU) := [("007", rule007U)]

/-- An 007 field with a well-formed subtype-`'a'` payload of length 8. -/
def field007a : MarcField := { tag := "007", fdata := .control "a|||||||" }

/-- An 007 field with an empty payload. -/
def field007Empty : MarcField := { tag := "007", fdata := .control "" }

/-- The resolved rule of an 007 field of subtype `'c'`: inclusive length
range 6–14 (the `[6, 14]` entry of the 007 length table). -/
def rule007c : Rule := { tag := "007", length := some (.range 6 14) }

/-- Modelled from the spec: the per-subtype 007 rules of the packaged rule
table (`validation_rules/default_rules.json` is a data file absent from the
Python sources); lengths follow the 007 length table of the spec. -/
def rule007Sub : List (String × Rule) :=
  [("a", { tag := "007", length := some (.fixed 8) }),
   ("c", { tag := "007", length := some (.range 6 14) }),
   ("d", { tag := "007", length := some (.fixed 6) }),
   ("f", { tag := "007", length := some (.fixed 10) }),
   ("g", { tag := "007", length := some (.fixed 9) }),
   ("h", { tag := "007", length := some (.fixed 13) }),
   ("k", { tag := "007", length := some (.fixed 6) }),
   ("m", { tag := "007", length := some (.fixed 23) }),
   ("o", { tag := "007", length := some (.fixed 2) }),
   ("q", { tag := "007", length := some (.fixed 2) }),
   ("r", { tag := "007", length := some (.fixed 11) }),
   ("s", { tag := "007", length := some (.fixed 14) }),
   ("t", { tag := "007", length := some (.fixed 2) }),
   ("v", { tag := "007", length := some (.fixed 9) }),
   ("z", { tag := "007", length := some (.fixed 2) })]

/-- `specRuleTable` extended with the keyed 007 entry. -/
def specRuleTable007 : RuleTable := specRuleTable ++ [("007", .bySub rule007Sub)]

/-- A rule for tag 336 whose `ind1` set is empty and whose `ind2` set
allows only a blank. -/
def rule336EmptyInd1 : Rule := { tag := "336", ind1 := [], ind2 := [" "] }

/-- The claimed mapping of leader bytes 6 and 7 to a material type, stated
in the claim's own terms for comparison against
`determine_material_type`. -/
def materialTypeSpec (b6 b7 : Char) : String :=
  if b6 = 'a' ∧ (b7 = 'b' ∨ b7 = 'i' ∨ b7 = 's') then "CR"
  else if b6 = 'c' ∨ b6 = 'd' ∨ b6 = 'i' ∨ b6 = 'j' then "MU"
  else if b6 = 'e' ∨ b6 = 'f' then "MP"
  else if b6 = 'g' ∨ b6 = 'k' ∨ b6 = 'o' ∨ b6 = 'r' then "VM"
  else if b6 = 'm' then "CF"
  else if b6 = 'p' then "MM"
  else "BK"

/-- Claim C8: validating the baseline record under the modelled default
table with its leader's positions 20–23 replaced by spaces yields exactly
four violations, all `InvalidLeader`, at leader positions 20, 21, 22 and
23, and no other error. -/
theorem c8_corrupted_leader_four_invalid_leader :
    validate_marc_record specCodeTables specRuleTable corruptedLeader
      baselineFields =
      .ok [.invalidLeader " " "20" ["4"], .invalidLeader " " "21" ["5"],
           .invalidLeader " " "22" ["0"], .invalidLeader " " "23" ["0"]] := by
  decide

/-- Claim C4 (divergence): a subtype-`'c'` 007 payload of length 14, inside
the inclusive rule range `[6, 14]`, still receives a `ControlFieldLength`
violation, because the checker compares `len(data)` for equality against
the range entry and an `int` never equals a `list`. -/
theorem c4_in_range_length_still_flagged :
    6 ≤ ("cr |||||||||||" : String).length ∧
    ("cr |||||||||||" : String).length ≤ 14 ∧
    get_control_field_length_errors rule007c "cr |||||||||||" "007" =
      [.controlFieldLength "007" (.range 6 14) "cr |||||||||||"] := by
  refine ⟨by decide, by decide, by decide⟩

/-- Claim C9 (divergence): enriching a record that carries an 007 field
rewrites the 007 rule object held by the rule table — the table after
`add_rules_to_pymarc_fields` stores a different `Rule` (its `length` and
`values` overwritten from the subtype entry) under `"007"` than it did
before the call. -/
theorem c9_enrichment_mutates_rule_table :
    add_rules_to_pymarc_fields utilsTable [field007a] =
      .ok ([("007", rule007UMutated)], [(some rule007UMutated, field007a)]) ∧
    rule007UMutated ≠ rule007U ∧
    lookupA utilsTable "007" = some rule007U := by
  refine ⟨by decide, by decide, by decide⟩

/-- Claim C10 (divergence): an 007 control field with an empty payload
makes the validator read `data[0]` during rule resolution, so validation
neither returns the record nor a violation collection — the `IndexError`
escapes (modelled as `.error ()`). -/
theorem c10_empty_007_payload_escapes :
    validate_marc_record specCodeTables specRuleTable007 baselineLeader
      [field007Empty] = .error () := by
  decide

/-- Claim C5 (counterexample): for a rule whose `ind1` set is empty, the
claim says the position is skipped and no violation is emitted whatever the
indicator value; the checker instead emits an `InvalidIndicator` for that
position, since no value is a member of the empty list. -/
theorem c5_empty_indicator_set_not_skipped :
    rule336EmptyInd1.ind1 = [] ∧
    get_indicator_errors rule336EmptyInd1 { first := " ", second := " " }
      "336" = [.invalidIndicator "336" "ind1" " " []] := by
  refine ⟨by decide, by decide⟩

/-- Claim C5 (amended): an `InvalidIndicator` for position n is emitted if
and only if the indicator value at that position is not a member of the
rule's list for that position — in particular an empty list always yields a
violation — and the two positions contribute independently, so a field
yields up to two indicator violations. -/
theorem c5_indicator_errors_characterization (rule : Rule) (ind : Indicators)
    (tag : String) :
    (MarcError.invalidIndicator tag "ind1" ind.first rule.ind1 ∈
        get_indicator_errors rule ind tag ↔ ind.first ∉ rule.ind1) ∧
    (MarcError.invalidIndicator tag "ind2" ind.second rule.ind2 ∈
        get_indicator_errors rule ind tag ↔ ind.second ∉ rule.ind2) ∧
    (get_indicator_errors rule ind tag).length =
      (if ind.first ∈ rule.ind1 then 0 else 1) +
      (if ind.second ∈ rule.ind2 then 0 else 1) := by
  unfold get_indicator_errors
  by_cases h1 : ind.first ∈ rule.ind1 <;> by_cases h2 : ind.second ∈ rule.ind2 <;>
    simp [h1, h2]

lemma mk_singleton_eq_char (d : Char) (s : String) (hs : s.data = [d]) (c : Char) :
    (String.mk [c] = s) ↔ c = d := by
  cases s with
  | mk l =>
    simp only [String.data] at hs
    subst hs
    constructor
    · intro h
      have h2 := congrArg String.data h
      simpa using h2
    · intro h; rw [h]

/-- Claim C3: `determine_material_type` returns `none` for an absent leader
or one shorter than 8 characters; otherwise its result depends only on
bytes 6 and 7 and equals the claimed mapping: byte 6 `'a'` with byte 7 in
b/i/s gives CR, c/d/i/j gives MU, e/f gives MP, g/k/o/r gives VM, `'m'`
gives CF, `'p'` gives MM, and `'a'` otherwise as well as every unlisted
byte-6 value gives BK. -/
theorem c3_material_type_characterization :
    determine_material_type none = none ∧
    (∀ s : String, s.length < 8 → determine_material_type (some s) = none) ∧
    (∀ l : List Char, 8 ≤ l.length →
      determine_material_type (some (String.mk l)) =
        some (materialTypeSpec (l.getD 6 ' ') (l.getD 7 ' '))) := by
  refine ⟨rfl, ?_, ?_⟩
  · intro s hs
    unfold determine_material_type
    simp [hs]
  · intro l hl
    match l, hl with
    | a :: b :: c :: d :: e :: f :: g :: h' :: rest, _ =>
      have hlen :
          ¬ ((String.mk (a :: b :: c :: d :: e :: f :: g :: h' :: rest)).length
            < 8) := by
        simp [String.length]
      unfold determine_material_type pySlice materialTypeSpec
      simp only [hlen, if_false, List.drop, List.take, List.getD, List.get?,
        Option.getD,
        mk_singleton_eq_char 'a' "a" rfl, mk_singleton_eq_char 'b' "b" rfl,
        mk_singleton_eq_char 'i' "i" rfl, mk_singleton_eq_char 's' "s" rfl,
        mk_singleton_eq_char 'c' "c" rfl, mk_singleton_eq_char 'd' "d" rfl,
        mk_singleton_eq_char 'j' "j" rfl, mk_singleton_eq_char 'e' "e" rfl,
        mk_singleton_eq_char 'f' "f" rfl, mk_singleton_eq_char 'g' "g" rfl,
        mk_singleton_eq_char 'k' "k" rfl, mk_singleton_eq_char 'o' "o" rfl,
        mk_singleton_eq_char 'r' "r" rfl, mk_singleton_eq_char 'm' "m" rfl,
        mk_singleton_eq_char 'p' "p" rfl]
      split_ifs <;> rfl

/-- Witness for C3: the characterization applied to the concrete short
leader `"0045"` and to the concrete 8-byte leader `"00454cam"` (bytes 6, 7
= `'a'`, `'m'`). -/
theorem c3_material_type_witness :
    determine_material_type (some "0045") = none ∧
    determine_material_type
        (some (String.mk ['0', '0', '4', '5', '4', 'c', 'a', 'm'])) =
      some (materialTypeSpec
        ((['0', '0', '4', '5', '4', 'c', 'a', 'm'] : List Char).getD 6 ' ')
        ((['0', '0', '4', '5', '4', 'c', 'a', 'm'] : List Char).getD 7 ' ')) :=
  ⟨c3_material_type_characterization.2.1 "0045" (by decide),
   c3_material_type_characterization.2.2 _ (by decide)⟩

lemma lookupA_append {α : Type} (l1 l2 : List (String × α)) (k : String) :
    lookupA (l1 ++ l2) k =
      match lookupA l1 k with
      | some v => some v
      | none => lookupA l2 k := by
  induction l1 with
  | nil => simp [lookupA]
  | cons p rest ih =>
    by_cases h : p.1 = k <;> simp [lookupA, h, ih]

lemma lookupA_map_single (rs : List (String × Rule)) (k : String) :
    lookupA (rs.map (fun p => (p.1, RuleEntry.single p.2))) k =
      (lookupA rs k).map RuleEntry.single := by
  induction rs with
  | nil => simp [lookupA]
  | cons p rest ih =>
    by_cases h : p.1 = k <;> simp [lookupA, h, ih]

lemma lookupA_default_part (ctx : RuleTable) (tbl : List (String × RawEntry))
    (mat : Option String) (k : String) (h : lookupA ctx k = none) :
    lookupA (tbl.filterMap (fun p =>
      if (lookupA ctx p.1).isSome then none
      else some (p.1, processEntry mat p.2))) k =
      (lookupA tbl k).map (processEntry mat) := by
  induction tbl with
  | nil => simp [lookupA]
  | cons p rest ih =>
    by_cases hk : p.1 = k
    · subst hk
      simp [lookupA, h, List.filterMap_cons]
    · by_cases hkeep : (lookupA ctx p.1).isSome <;>
        simp [lookupA, hk, hkeep, ih, List.filterMap_cons]

/-- Claim C2: with `replace_all = true` the effective table is exactly the
caller-supplied rules (a tag absent from the override resolves to no rule);
with `replace_all = false` a tag present in the override resolves to the
override's rule while every other tag keeps its default rule, resolved
against the leader's material type. -/
theorem c2_override_semantics (tbl : List (String × RawEntry))
    (leader : Option String) (rs : List (String × Rule)) (t : String) :
    (default_rules tbl leader (some { rules := some rs, replace_all := true }) =
      rs.map (fun p => (p.1, RuleEntry.single p.2)) ∧
     lookupA (default_rules tbl leader
        (some { rules := some rs, replace_all := true })) t =
      (lookupA rs t).map RuleEntry.single) ∧
    lookupA (default_rules tbl leader
        (some { rules := some rs, replace_all := false })) t =
      (match lookupA rs t with
       | some r => some (RuleEntry.single r)
       | none => (lookupA tbl t).map
          (processEntry (determine_material_type leader))) := by
  refine ⟨⟨?_, ?_⟩, ?_⟩
  · simp [default_rules]
  · simp [default_rules, lookupA_map_single]
  · unfold default_rules
    simp only [Option.isSome_some, Bool.and_false, Option.getD,
      Bool.false_eq_true, if_false]
    rw [lookupA_append]
    rw [lookupA_map_single]
    cases hrs : lookupA rs t with
    | some r => simp
    | none =>
      have hctx : lookupA (List.map (fun p => (p.1, RuleEntry.single p.2)) rs) t
          = none := by
        rw [lookupA_map_single, hrs]; rfl
      rw [lookupA_default_part _ _ _ _ hctx]
      rfl

/-- The subfield code a subfield-level error is about, `none` for every
other error kind. -/
def errSubCode : MarcError → Option String
  | .invalidSubfield _ code _ => some code
  | .nonRepeatableSubfield _ code _ => some code
  | _ => none

lemma mem_dedupAux (x : String) (l : List String) :
    ∀ seen, x ∈ dedupAux l seen ↔ x ∈ l ∧ x ∉ seen := by
  induction l with
  | nil => intro seen; simp [dedupAux]
  | cons c rest ih =>
    intro seen
    by_cases hx : x = c
    · subst hx
      simp only [dedupAux]
      split_ifs with hc
      · rw [ih]; simp [hc]
      · simp [List.mem_cons, hc]
    · simp only [dedupAux]
      split_ifs with hc
      · rw [ih]; simp [List.mem_cons, hx]
      · simp only [List.mem_cons, hx, false_or]
        rw [ih]
        simp [List.mem_cons, hx]

lemma nodup_dedupAux (l : List String) : ∀ seen, (dedupAux l seen).Nodup := by
  induction l with
  | nil => intro seen; simp [dedupAux]
  | cons c rest ih =>
    intro seen
    simp only [dedupAux]
    split_ifs with hc
    · exact ih _
    · rw [List.nodup_cons]
      refine ⟨?_, ih _⟩
      rw [mem_dedupAux]
      rintro ⟨-, habs⟩
      exact habs (List.mem_cons_self c _)

lemma nodup_dedupFirst (l : List String) : (dedupFirst l).Nodup :=
  nodup_dedupAux l []

lemma mem_dedupFirst (x : String) (l : List String) :
    x ∈ dedupFirst l ↔ x ∈ l := by
  unfold dedupFirst
  rw [mem_dedupAux]
  simp

lemma filterMap_filter_code (g : String → Option MarcError)
    (hg : ∀ c e, g c = some e → errSubCode e = some c) (code : String) :
    ∀ l : List String, l.Nodup →
    (l.filterMap g).filter (fun e => errSubCode e = some code) =
      if code ∈ l then (g code).toList else [] := by
  intro l
  induction l with
  | nil => intro _; simp
  | cons c rest ih =>
    intro hn
    rw [List.nodup_cons] at hn
    cases hgc : g c with
    | none =>
      by_cases hcc : code = c
      · subst hcc
        simp [List.filterMap_cons, hgc, ih hn.2, hn.1]
      · simp [List.filterMap_cons, hgc, ih hn.2, hcc]
    | some e =>
      have he := hg c e hgc
      by_cases hcc : code = c
      · subst hcc
        simp [List.filterMap_cons, hgc, List.filter_cons, he, ih hn.2, hn.1]
      · have hne : ¬ (errSubCode e = some code) := by
          rw [he]; simp; intro h; exact hcc h.symm
        simp [List.filterMap_cons, hgc, List.filter_cons, hne, ih hn.2, hcc]

/-- Claim C6: for each distinct subfield code present in a field, the
subfield checker emits at most one violation for that code: a
`NonRepeatableSubfield` exactly when the code repeats and is in the
non-repeatable set, otherwise an `InvalidSubfield` exactly when a nonempty
valid-code set omits the code, and never both (repeatability first,
validity second, mutually exclusive per code). -/
theorem c6_subfield_errors_per_code (rule : Rule) (sr : SubfieldRules)
    (subs : List Subfield) (tag code : String)
    (h : rule.subfields = some sr) :
    (get_subfield_errors rule subs tag).filter
        (fun e => errSubCode e = some code) =
      (if code ∈ subs.map (fun s => s.code) then
        (if 1 < (subs.filter (fun s => s.code = code)).length ∧
            code ∈ sr.non_repeatable then
          [.nonRepeatableSubfield tag code (subs.filter (fun s => s.code = code))]
        else if sr.valid ≠ [] ∧ code ∉ sr.valid then
          [.invalidSubfield tag code (subs.filter (fun s => s.code = code))]
        else [])
       else []) := by
  unfold get_subfield_errors
  rw [h]
  show (List.filterMap _ (dedupFirst (subs.map fun s => s.code))).filter _ = _
  rw [filterMap_filter_code _ ?hg code _ (nodup_dedupFirst _)]
  case hg =>
    intro c e hce
    simp only at hce
    split_ifs at hce
    all_goals cases hce
    all_goals rfl
  · simp only [mem_dedupFirst]
    by_cases hin : code ∈ subs.map (fun s => s.code)
    · rw [if_pos hin, if_pos hin]
      split_ifs <;> rfl
    · rw [if_neg hin, if_neg hin]

/-- The subfield rules of the modelled 050 rule. -/
def sr050 : SubfieldRules :=
  { valid := ["a", "b"], repeatable := ["a"], non_repeatable := ["b"] }

/-- An 050 subfield list with a repeated non-repeatable `b` and a
disallowed `t`. -/
def subs050bad : List Subfield :=
  [{ code := "b", value := "x" }, { code := "b", value := "y" },
   { code := "t", value := "z" }]

/-- Witness for C6: the per-code characterization applied to the concrete
050 field carrying two `b` subfields, at code `b`. -/
theorem c6_subfield_errors_witness :
    (get_subfield_errors rule050 subs050bad "050").filter
        (fun e => errSubCode e = some "b") =
      [.nonRepeatableSubfield "050" "b"
        [{ code := "b", value := "x" }, { code := "b", value := "y" }]] :=
  (c6_subfield_errors_per_code rule050 sr050 subs050bad "050" "b" rfl).trans
    (by decide)


lemma genericValueErrors_values_none (rule : Rule) (data tag : String)
    (h : rule.values = none) : genericValueErrors rule data tag = .ok [] := by
  unfold genericValueErrors
  rw [h]

lemma genericValueErrors_shape (rule : Rule) (data tag : String)
    (g : List MarcError) (h : genericValueErrors rule data tag = .ok g) :
    ∀ e ∈ g, ∃ t i v l, e = MarcError.invalidFixedField t i v l := by
  unfold genericValueErrors at h
  split at h
  · cases h
    intro e he; cases he
  · split at h
    · cases h
      intro e he; cases he
    · split at h
      · cases h
      · cases h
        intro e he
        rw [List.mem_filterMap] at he
        obtain ⟨p, -, hp⟩ := he
        split at hp
        next => cases hp
        next vals hlk =>
          split_ifs at hp
          all_goals cases hp
          all_goals exact ⟨tag, p.2, vals, p.1, rfl⟩

lemma marc008_lang_mem (codes : CodeTables) (data : String) :
    MarcError.invalidFixedFieldCode "008" (pySlice data 35 38) langCodeMsg
        "35-37" ∈ marc008CodeErrors codes data ↔
      pySlice data 35 38 ∉ codes.language_codes := by
  have hmsg : langCodeMsg ≠ countryCodeMsg := by decide
  unfold marc008CodeErrors
  by_cases hc1 : pySlice data 35 38 ∈ codes.language_codes <;>
    by_cases hc2 : pySlice data 15 18 ∈ codes.country_codes.map
        (fun c => c.pushn ' ' (3 - c.length)) <;>
      simp [hc1, hc2, hmsg]

lemma marc008_country_mem (codes : CodeTables) (data : String) :
    MarcError.invalidFixedFieldCode "008" (pySlice data 15 18) countryCodeMsg
        "15-17" ∈ marc008CodeErrors codes data ↔
      pySlice data 15 18 ∉ codes.country_codes.map
        (fun c => c.pushn ' ' (3 - c.length)) := by
  have hmsg : countryCodeMsg ≠ langCodeMsg := by decide
  unfold marc008CodeErrors
  by_cases hc1 : pySlice data 35 38 ∈ codes.language_codes <;>
    by_cases hc2 : pySlice data 15 18 ∈ codes.country_codes.map
        (fun c => c.pushn ' ' (3 - c.length)) <;>
      simp [hc1, hc2, hmsg]

/-- Claim C7: for every control field with tag 008 the value checker
appends the country/language results unconditionally: whenever the generic
phase returns a list `g` (which is empty when the rule has no `values`
map), the full result is `g` followed by the 008 code errors, and the
language (loc 35-37) / country (loc 15-17) violations are present exactly
when `data[35:38]` is not a language-table key, respectively `data[15:18]`
is not a country-table key right-padded with spaces to width 3. -/
theorem c7_008_code_checks_always_run (codes : CodeTables) (rule : Rule) (data : String)
    (g : List MarcError) (h : genericValueErrors rule data "008" = .ok g) :
    get_control_field_value_errors codes rule data "008" =
      .ok (g ++ marc008CodeErrors codes data) ∧
    (rule.values = none → g = []) ∧
    (MarcError.invalidFixedFieldCode "008" (pySlice data 35 38) langCodeMsg
        "35-37" ∈ g ++ marc008CodeErrors codes data ↔
      pySlice data 35 38 ∉ codes.language_codes) ∧
    (MarcError.invalidFixedFieldCode "008" (pySlice data 15 18) countryCodeMsg
        "15-17" ∈ g ++ marc008CodeErrors codes data ↔
      pySlice data 15 18 ∉ codes.country_codes.map
        (fun c => c.pushn ' ' (3 - c.length))) := by
  have hshape := genericValueErrors_shape rule data "008" g h
  have hnotg : ∀ i m l, MarcError.invalidFixedFieldCode "008" i m l ∉ g := by
    intro i m l hmem
    obtain ⟨t, i', v, l', he⟩ := hshape _ hmem
    cases he
  refine ⟨?_, ?_, ?_, ?_⟩
  · unfold get_control_field_value_errors
    rw [h]
    simp
  · intro hv
    have h2 := genericValueErrors_values_none rule data "008" hv
    rw [h] at h2
    cases h2
    rfl
  · rw [List.mem_append]
    constructor
    · rintro (hmem | hmem)
      · exact absurd hmem (hnotg _ _ _)
      · exact (marc008_lang_mem codes data).mp hmem
    · intro hmiss
      exact Or.inr ((marc008_lang_mem codes data).mpr hmiss)
  · rw [List.mem_append]
    constructor
    · rintro (hmem | hmem)
      · exact absurd hmem (hnotg _ _ _)
      · exact (marc008_country_mem codes data).mp hmem
    · intro hmiss
      exact Or.inr ((marc008_country_mem codes data).mpr hmiss)

/-- Witness for C7: the 008 theorem applied to the baseline 008 payload and
the modelled BK rule, whose `values` map is unset, so the generic phase
returns the empty list. -/
theorem c7_008_code_checks_witness :
    get_control_field_value_errors specCodeTables rule008BK baseline008
      "008" = .ok ([] ++ marc008CodeErrors specCodeTables baseline008) :=
  (c7_008_code_checks_always_run specCodeTables rule008BK baseline008 []
    (by decide)).1

lemma exceptMapM_ok {α β : Type} (f : α → Except Unit β) :
    ∀ (l : List α) (out : List β), l.mapM f = .ok out →
      List.Forall₂ (fun a b => f a = .ok b) l out := by
  intro l
  induction l with
  | nil =>
    intro out h
    simp only [List.mapM_nil] at h
    cases h
    exact .nil
  | cons a rest ih =>
    intro out h
    rw [List.mapM_cons] at h
    cases hfa : f a with
    | error u =>
      rw [hfa] at h
      replace h : (Except.error u : Except Unit (List β)) = .ok out := h
      cases h
    | ok b =>
      rw [hfa] at h
      replace h : (rest.mapM f >>= fun bs => pure (b :: bs)) = Except.ok out := h
      cases hrest : rest.mapM f with
      | error u =>
        rw [hrest] at h
        replace h : (Except.error u : Except Unit (List β)) = .ok out := h
        cases h
      | ok bs =>
        rw [hrest] at h
        replace h : (Except.ok (b :: bs) : Except Unit (List β)) = .ok out := h
        cases h
        exact .cons hfa (ih bs hrest)

/-- Claim C1: when per-field validation computes an error list for every
field, the record's aggregated result is exactly the leader errors followed
by the cross-field errors followed by the concatenation of every field's
own errors — each field's list is the one its own validators produce in
isolation (second conjunct), and the total count is the sum of the parts,
so no failure in one field suppresses a sibling field's or the cross-field
checks, and N independent violations surface as exactly N errors. -/
theorem c1_validation_aggregates_all_errors (codes : CodeTables)
    (tbl : RuleTable) (leader : String) (fields : List MarcField)
    (perF : List (List MarcError))
    (h : fields.mapM (fieldErrors codes tbl) = .ok perF) :
    validate_marc_record codes tbl leader fields =
      .ok (get_leader_errors (lookupLDR tbl) leader ++
           get_marc_field_errors tbl fields ++ perF.flatten) ∧
    List.Forall₂ (fun f e => fieldErrors codes tbl f = .ok e) fields perF ∧
    (get_leader_errors (lookupLDR tbl) leader ++
     get_marc_field_errors tbl fields ++ perF.flatten).length =
      (get_leader_errors (lookupLDR tbl) leader).length +
      (get_marc_field_errors tbl fields).length +
      (perF.map List.length).sum := by
  refine ⟨?_, exceptMapM_ok _ _ _ h, ?_⟩
  · unfold validate_marc_record
    rw [h]
    rfl
  · simp [List.length_append, List.length_flatten]
    omega

/-- The baseline fields extended with a duplicate 001 and an 050 field
carrying two invalid indicators, a repeated non-repeatable `b` and a
disallowed `t` — nine independent violations together with the corrupted
leader. -/
def wfields : List MarcField :=
  baselineFields ++
  [{ tag := "001", fdata := .control "x2" },
   { tag := "050", fdata := .datafield { first := "9", second := "9" }
      subs050bad }]

/-- The per-field error lists of `wfields` under the modelled table. -/
def wperF : List (List MarcError) :=
  [[], [], [], [], [], [],
   [.invalidIndicator "050" "ind1" "9" ["", " ", "0", "1"],
    .invalidIndicator "050" "ind2" "9" ["0", "4"],
    .nonRepeatableSubfield "050" "b"
      [{ code := "b", value := "x" }, { code := "b", value := "y" }],
    .invalidSubfield "050" "t" [{ code := "t", value := "z" }]]]

/-- Witness for C1: the aggregation theorem applied to a concrete record
with nine independent violations (four leader, one cross-field, four in one
data field). -/
theorem c1_validation_aggregates_witness :
    validate_marc_record specCodeTables specRuleTable007 corruptedLeader
      wfields =
      .ok (get_leader_errors (lookupLDR specRuleTable007) corruptedLeader ++
           get_marc_field_errors specRuleTable007 wfields ++
           wperF.flatten) :=
  (c1_validation_aggregates_all_errors specCodeTables specRuleTable007
    corruptedLeader wfields wperF (by decide)).1

end PydanticMarc
